import Mathlib

/-
Verification development for htb_presence.py: a single polling loop that
mirrors the user's active machine on a remote platform into a local
rich-presence client.  The loop body is embedded as a pure transition
function on the loop's mutable state (`Session`), with the results of the
remote HTTP calls and of the presence-client IPC operations supplied as
per-iteration oracle inputs (`PollInput`), and all externally visible
actions recorded in an event trace.
-/

namespace HtbPresence

/-- The `info` object returned by the user-info endpoint (fields used). -/
structure UserInfo where
  id : Nat
  name : String
deriving DecidableEq, Repr

/-- The active-machine object (fields used: `name`, `avatar`).
`avatar` may be missing (Python `active.get("avatar")` returning `None`). -/
structure Machine where
  name : String
  avatar : Option String
deriving DecidableEq, Repr

/-- One record of the profile activity list (fields used: `name`, `type`). -/
structure ActRec where
  name : String
  type : String
deriving DecidableEq, Repr

/-- The per-iteration user/root flag pair (`activity_flags` dict). -/
structure ActivityFlags where
  user : Bool
  root : Bool
deriving DecidableEq, Repr

/-- The loop's mutable state: `connected_rpc` and `last_machine`. -/
structure Session where
  connected_rpc : Bool
  last_machine : Option String
deriving DecidableEq, Repr

/-- Keyword fields of a `rpc.update(...)` call; a field is `none` when the
call does not pass that keyword. -/
structure UpdateFields where
  details : Option String
  state : Option String
  large_image : Option String
  small_image : Option String
  small_text : Option String
  large_text : Option String
deriving DecidableEq, Repr

/-- Externally visible actions of one loop iteration. -/
inductive Event where
  | connectAttempt : Event
  | clear : Event
  | update : UpdateFields → Event
  | sleep : Nat → Event
deriving DecidableEq, Repr

/-- Oracle for everything the environment decides in one iteration: HTTP
status codes and payloads of the four remote fetches, and whether each
presence-client IPC call succeeds (a `false` models the call raising). -/
structure PollInput where
  connectOk : Bool
  userStatus : Nat
  userPayload : Option UserInfo
  connStatus : Nat
  connPayload : Option Bool
  activeStatus : Nat
  activeInfo : Option Machine
  activityResp : Option (Nat × List ActRec)
  clearOk : Bool
  waitUpdateOk : Bool
  pushUpdateOk : Bool
deriving DecidableEq, Repr

/-- Fixed origin used to resolve relative avatar paths. -/
def API_BASE_ORIGIN : String := "https://app.hackthebox.com"

/-- `get_user_info`: non-200 raises; otherwise returns `r.json().get("info")`
(which may itself be null). -/
def get_user_info (status : Nat) (info : Option UserInfo) :
    Except String (Option UserInfo) :=
  if status ≠ 200 then Except.error ("user/info " ++ toString status)
  else Except.ok info

/-- `get_connection_status`: non-200 raises; otherwise returns
`r.json().get("status")` (which may be null). -/
def get_connection_status (status : Nat) (st : Option Bool) :
    Except String (Option Bool) :=
  if status ≠ 200 then Except.error ("connection/status " ++ toString status)
  else Except.ok st

/-- `get_active_machine`: 404 returns `None`; other non-200 raises;
on 200 a falsy `info` payload is also `None`. -/
def get_active_machine (status : Nat) (info : Option Machine) :
    Except String (Option Machine) :=
  if status = 404 then Except.ok none
  else if status ≠ 200 then Except.error ("machines/active " ++ toString status)
  else Except.ok info

/-- The scan over the activity list (lines 126-132): a record whose `name`
matches the machine sets the flag selected by its `type`. -/
def scan_activity (act : List ActRec) (machine_name : String) : ActivityFlags :=
  act.foldl
    (fun flags r =>
      if r.name = machine_name then
        if r.type = "user" then { flags with user := true }
        else if r.type = "root" then { flags with root := true }
        else flags
      else flags)
    { user := false, root := false }

/-- The whole guarded flag computation (lines 121-134): if `user` is null the
attribute access inside the `try` raises and is swallowed; a raised request or
a non-200 status likewise leaves the flags at their `false` defaults. -/
def activity_flags (user : Option UserInfo)
    (resp : Option (Nat × List ActRec)) (machine_name : String) : ActivityFlags :=
  match user with
  | none => { user := false, root := false }
  | some _ =>
    match resp with
    | none => { user := false, root := false }
    | some (code, act) =>
      if code = 200 then scan_activity act machine_name
      else { user := false, root := false }

/-- Avatar resolution (lines 116-117): missing avatar becomes `""`; a path
starting with `/` (the `startswith` test, expressed on the character data)
is prefixed with the fixed origin. -/
def resolve_avatar (avatar : Option String) : String :=
  let a := avatar.getD ""
  if ("/".data).isPrefixOf a.data then API_BASE_ORIGIN ++ a else a

/-- `large_image` selection (line 144): the resolved avatar if truthy,
otherwise the fallback asset identifier. -/
def large_image_of (avatar : Option String) : String :=
  let a := resolve_avatar avatar
  if a = "" then "htb_logo" else a

/-- Flag rendering (lines 136-137). -/
def flag_icon (b : Bool) : String := if b then "🟢" else "🔴"

/-- The `state` string (line 141). -/
def render_state (flags : ActivityFlags) : String :=
  "User: " ++ flag_icon flags.user ++ " | Root: " ++ flag_icon flags.root

/-- Keyword arguments of the default "waiting" push (line 110). -/
def waiting_fields : UpdateFields :=
  { details := some "Connected to HTB"
    state := some "Waiting for active machine"
    large_image := none
    small_image := none
    small_text := none
    large_text := some "Hack The Box" }

/-- Keyword arguments of the active-machine push (lines 139-150). -/
def machine_fields (machine_name : String) (flags : ActivityFlags)
    (avatar : Option String) (user : Option UserInfo) : UpdateFields :=
  { details := some machine_name
    state := some (render_state flags)
    large_image := some (large_image_of avatar)
    small_image := some ""
    small_text := some (match user with | some u => u.name | none => "")
    large_text := none }

/-- Outcome of the `try` body of one iteration: either it ran to one of its
normal exits (`done`), or an exception escaped to the outer handler
(`raised`); both carry the state and the trace at that point. -/
inductive BodyResult where
  | done : Session → List Event → BodyResult
  | raised : Session → List Event → BodyResult
deriving DecidableEq, Repr

def BodyResult.session : BodyResult → Session
  | BodyResult.done s _ => s
  | BodyResult.raised s _ => s

def BodyResult.events : BodyResult → List Event
  | BodyResult.done _ e => e
  | BodyResult.raised _ e => e

/-- The effective boolean of `if connection:` — the fetch degrades to `False`
on failure (lines 95-100) and a null payload is falsy. -/
def connection_of (inp : PollInput) : Bool :=
  match get_connection_status inp.connStatus inp.connPayload with
  | Except.ok (some b) => b
  | Except.ok none => false
  | Except.error _ => false

/-- Tail of the no-machine branch (lines 108-112): the waiting push when on
VPN, then sleep 5 and restart the iteration. -/
def no_machine_tail (s : Session) (inp : PollInput) (connection : Bool)
    (evs : List Event) : BodyResult :=
  if connection then
    let evs1 := evs ++ [Event.update waiting_fields]
    if inp.waitUpdateOk then BodyResult.done s (evs1 ++ [Event.sleep 5])
    else BodyResult.raised s evs1
  else BodyResult.done s (evs ++ [Event.sleep 5])

/-- The no-machine branch (lines 103-112): clear once when a machine was
previously shown; the assignment `last_machine = None` happens only after
`rpc.clear()` returned, so a raising clear leaves the state untouched. -/
def no_machine_branch (s : Session) (inp : PollInput) (connection : Bool)
    (evs : List Event) : BodyResult :=
  match s.last_machine with
  | some _ =>
    let evs1 := evs ++ [Event.clear]
    if inp.clearOk then
      no_machine_tail { s with last_machine := none } inp connection evs1
    else BodyResult.raised s evs1
  | none => no_machine_tail s inp connection evs

/-- The active-machine branch (lines 114-156): both sides of the
`machine_name != last_machine` comparison issue the same push; the
assignment to `last_machine` happens only after `rpc.update` returned. -/
def machine_branch (s : Session) (inp : PollInput) (user : Option UserInfo)
    (m : Machine) (evs : List Event) : BodyResult :=
  let machine_name := m.name
  let flags := activity_flags user inp.activityResp machine_name
  let evs1 := evs ++ [Event.update (machine_fields machine_name flags m.avatar user)]
  if inp.pushUpdateOk then
    if some machine_name ≠ s.last_machine then
      BodyResult.done { s with last_machine := some machine_name }
        (evs1 ++ [Event.sleep 10])
    else BodyResult.done s (evs1 ++ [Event.sleep 10])
  else BodyResult.raised s evs1

/-- The HTB checks of one iteration (lines 86-156), entered once the
presence client is connected: a failing user-info fetch propagates, the
connection status degrades, and the active-machine result selects the
branch (its unexpected statuses propagate as well). -/
def checks (s : Session) (inp : PollInput) (evs : List Event) : BodyResult :=
  match get_user_info inp.userStatus inp.userPayload with
  | Except.error _ => BodyResult.raised s evs
  | Except.ok user =>
    match get_active_machine inp.activeStatus inp.activeInfo with
    | Except.error _ => BodyResult.raised s evs
    | Except.ok none => no_machine_branch s inp (connection_of inp) evs
    | Except.ok (some m) => machine_branch s inp user m evs

/-- The `try` body of one iteration (lines 74-156), including the guarded
connect step: a failing connect is caught in place, sleeps 3 and restarts
the iteration without touching the remote API. -/
def body (s : Session) (inp : PollInput) : BodyResult :=
  if s.connected_rpc then checks s inp []
  else
    if inp.connectOk then
      checks { s with connected_rpc := true } inp [Event.connectAttempt]
    else BodyResult.done s [Event.connectAttempt, Event.sleep 3]

/-- The outer `except Exception` handler (lines 164-171): log, best-effort
clear (secondary failures swallowed), sleep 5 — the state is untouched. -/
def loop_handler (s : Session) (evs : List Event) : Session × List Event :=
  (s, evs ++ [Event.clear, Event.sleep 5])

/-- One full iteration of the `while True` loop: the body, with any escaped
exception routed through the outer handler. -/
def step (s : Session) (inp : PollInput) : Session × List Event :=
  match body s inp with
  | BodyResult.done s1 evs => (s1, evs)
  | BodyResult.raised s1 evs => loop_handler s1 evs

/-- Running the loop over a finite prefix of oracle inputs. -/
def run (s : Session) : List PollInput → Session × List Event
  | [] => (s, [])
  | inp :: rest =>
    let p := step s inp
    let q := run p.1 rest
    (q.1, p.2 ++ q.2)

/-- Whether an event is a presence-client clear. -/
def Event.isClear : Event → Bool
  | Event.clear => true
  | _ => false

/-- Number of clear calls in a trace. -/
def clear_count (evs : List Event) : Nat := (evs.filter Event.isClear).length

/-- The update calls of a trace, in order. -/
def updates_of (evs : List Event) : List UpdateFields :=
  evs.filterMap (fun e => match e with | Event.update f => some f | _ => none)

/-- Healthy no-session iteration: user info fetched, active machine absent
(404 or null payload), presence-client calls succeed. -/
def no_session_ok (i : PollInput) : Prop :=
  (∃ u, get_user_info i.userStatus i.userPayload = Except.ok u) ∧
  get_active_machine i.activeStatus i.activeInfo = Except.ok none ∧
  i.clearOk = true ∧ i.waitUpdateOk = true

/- ### Structural lemmas about one iteration -/

theorem step_session (s : Session) (i : PollInput) :
    (step s i).1 = (body s i).session := by
  unfold step
  cases body s i <;> rfl

theorem step_no_connect (s : Session) (i : PollInput)
    (h : Event.connectAttempt ∉ (body s i).events) :
    Event.connectAttempt ∉ (step s i).2 := by
  unfold step
  cases hb : body s i with
  | done s1 evs =>
    rw [hb] at h
    simpa [BodyResult.events] using h
  | raised s1 evs =>
    rw [hb] at h
    simp only [BodyResult.events] at h
    simp [loop_handler, h]

theorem nm_tail_session (s : Session) (i : PollInput) (c : Bool)
    (evs : List Event) : (no_machine_tail s i c evs).session = s := by
  unfold no_machine_tail
  split
  · split <;> rfl
  · rfl

theorem nm_tail_no_connect (s : Session) (i : PollInput) (c : Bool)
    (evs : List Event) (h : Event.connectAttempt ∉ evs) :
    Event.connectAttempt ∉ (no_machine_tail s i c evs).events := by
  unfold no_machine_tail
  split
  · split <;> simp [BodyResult.events, h]
  · simp [BodyResult.events, h]

theorem nm_branch_conn (s : Session) (i : PollInput) (c : Bool)
    (evs : List Event) :
    (no_machine_branch s i c evs).session.connected_rpc = s.connected_rpc := by
  unfold no_machine_branch
  split
  · split
    · rw [nm_tail_session]
    · rfl
  · rw [nm_tail_session]

theorem nm_branch_no_connect (s : Session) (i : PollInput) (c : Bool)
    (evs : List Event) (h : Event.connectAttempt ∉ evs) :
    Event.connectAttempt ∉ (no_machine_branch s i c evs).events := by
  unfold no_machine_branch
  split
  · split
    · exact nm_tail_no_connect _ _ _ _ (by simp [h])
    · simp [BodyResult.events, h]
  · exact nm_tail_no_connect _ _ _ _ h

theorem machine_branch_conn (s : Session) (i : PollInput)
    (u : Option UserInfo) (m : Machine) (evs : List Event) :
    (machine_branch s i u m evs).session.connected_rpc = s.connected_rpc := by
  unfold machine_branch
  dsimp only
  split
  · split <;> rfl
  · rfl

theorem machine_branch_no_connect (s : Session) (i : PollInput)
    (u : Option UserInfo) (m : Machine) (evs : List Event)
    (h : Event.connectAttempt ∉ evs) :
    Event.connectAttempt ∉ (machine_branch s i u m evs).events := by
  unfold machine_branch
  dsimp only
  split
  · split <;> simp [BodyResult.events, h]
  · simp [BodyResult.events, h]

theorem checks_conn (s : Session) (i : PollInput) (evs : List Event) :
    (checks s i evs).session.connected_rpc = s.connected_rpc := by
  unfold checks
  split
  · rfl
  · split
    · rfl
    · rw [nm_branch_conn]
    · rw [machine_branch_conn]

theorem checks_no_connect (s : Session) (i : PollInput) (evs : List Event)
    (h : Event.connectAttempt ∉ evs) :
    Event.connectAttempt ∉ (checks s i evs).events := by
  unfold checks
  split
  · simpa [BodyResult.events] using h
  · split
    · simpa [BodyResult.events] using h
    · exact nm_branch_no_connect _ _ _ _ h
    · exact machine_branch_no_connect _ _ _ _ _ h

/- ### Characterization of one iteration under healthy inputs -/

theorem step_no_machine (s : Session) (i : PollInput) (u : Option UserInfo)
    (hc : s.connected_rpc = true)
    (hu : get_user_info i.userStatus i.userPayload = Except.ok u)
    (ha : get_active_machine i.activeStatus i.activeInfo = Except.ok none)
    (hcl : i.clearOk = true) (hw : i.waitUpdateOk = true) :
    step s i = ({ s with last_machine := none },
      (if s.last_machine.isSome then [Event.clear] else []) ++
      (if connection_of i then [Event.update waiting_fields] else []) ++
      [Event.sleep 5]) := by
  obtain ⟨cr, lm⟩ := s
  replace hc : cr = true := hc
  subst hc
  have hb : body ⟨true, lm⟩ i = no_machine_branch ⟨true, lm⟩ i (connection_of i) [] := by
    simp [body, checks, hu, ha]
  have hnb : no_machine_branch ⟨true, lm⟩ i (connection_of i) [] =
      BodyResult.done ⟨true, none⟩
        ((if (lm.isSome : Bool) then [Event.clear] else []) ++
         (if connection_of i then [Event.update waiting_fields] else []) ++
         [Event.sleep 5]) := by
    cases lm with
    | none => cases hcn : connection_of i <;>
        simp [no_machine_branch, no_machine_tail, hw, hcn]
    | some n => cases hcn : connection_of i <;>
        simp [no_machine_branch, no_machine_tail, hcl, hw, hcn]
  unfold step
  rw [hb, hnb]

theorem step_machine (s : Session) (i : PollInput) (u : Option UserInfo)
    (m : Machine)
    (hc : s.connected_rpc = true)
    (hu : get_user_info i.userStatus i.userPayload = Except.ok u)
    (ha : get_active_machine i.activeStatus i.activeInfo = Except.ok (some m))
    (hp : i.pushUpdateOk = true) :
    step s i = ({ s with last_machine := some m.name },
      [Event.update
         (machine_fields m.name (activity_flags u i.activityResp m.name) m.avatar u),
       Event.sleep 10]) := by
  obtain ⟨cr, lm⟩ := s
  replace hc : cr = true := hc
  subst hc
  have hb : body ⟨true, lm⟩ i = machine_branch ⟨true, lm⟩ i u m [] := by
    simp [body, checks, hu, ha]
  have hmb : machine_branch ⟨true, lm⟩ i u m [] =
      BodyResult.done ⟨true, some m.name⟩
        [Event.update
           (machine_fields m.name (activity_flags u i.activityResp m.name) m.avatar u),
         Event.sleep 10] := by
    by_cases hne : some m.name = lm
    · simp [machine_branch, hp, hne]
    · simp [machine_branch, hp, hne]
  unfold step
  rw [hb, hmb]

/- ### Congruence in the oracle input -/

theorem nm_branch_congr (s : Session) (i j : PollInput) (c : Bool)
    (evs : List Event)
    (h1 : i.clearOk = j.clearOk) (h2 : i.waitUpdateOk = j.waitUpdateOk) :
    no_machine_branch s i c evs = no_machine_branch s j c evs := by
  unfold no_machine_branch no_machine_tail
  rw [h1, h2]

theorem machine_branch_congr (s : Session) (i j : PollInput)
    (u : Option UserInfo) (m : Machine) (evs : List Event)
    (h1 : i.activityResp = j.activityResp) (h2 : i.pushUpdateOk = j.pushUpdateOk) :
    machine_branch s i u m evs = machine_branch s j u m evs := by
  unfold machine_branch
  rw [h1, h2]

theorem checks_congr (s : Session) (i j : PollInput) (evs : List Event)
    (hu : i.userStatus = j.userStatus) (hup : i.userPayload = j.userPayload)
    (hcn : connection_of i = connection_of j)
    (ha : i.activeStatus = j.activeStatus) (hai : i.activeInfo = j.activeInfo)
    (h1 : i.clearOk = j.clearOk) (h2 : i.waitUpdateOk = j.waitUpdateOk)
    (h3 : i.activityResp = j.activityResp) (h4 : i.pushUpdateOk = j.pushUpdateOk) :
    checks s i evs = checks s j evs := by
  unfold checks
  rw [hu, hup, ha, hai, hcn]
  cases get_user_info j.userStatus j.userPayload with
  | error e => rfl
  | ok user =>
    cases get_active_machine j.activeStatus j.activeInfo with
    | error e => rfl
    | ok om =>
      cases om with
      | none => exact nm_branch_congr s i j _ evs h1 h2
      | some m => exact machine_branch_congr s i j user m evs h3 h4

/- ### A run of healthy no-session iterations issues no clear -/

theorem run_no_session_no_clear (rest : List PollInput) (s : Session)
    (hc : s.connected_rpc = true) (hlm : s.last_machine = none)
    (hall : ∀ j ∈ rest, no_session_ok j) :
    clear_count (run s rest).2 = 0 := by
  induction rest generalizing s with
  | nil => simp [run, clear_count]
  | cons j rest ih =>
    obtain ⟨⟨u, hu⟩, ha, hcl, hw⟩ := hall j (by simp)
    have hstep := step_no_machine s j u hc hu ha hcl hw
    have hrest : clear_count (run (step s j).1 rest).2 = 0 := by
      apply ih
      · rw [hstep]; exact hc
      · rw [hstep]
      · exact fun k hk => hall k (by simp [hk])
    have hone : clear_count (step s j).2 = 0 := by
      rw [hstep]
      cases hcn : connection_of j <;>
        simp [clear_count, hlm, hcn, Event.isClear, List.filter_append]
    simp only [run]
    simp [clear_count, List.filter_append] at hone hrest ⊢
    exact ⟨hone, hrest⟩

/- ### Sample inputs used by witnesses and scenarios -/

def sampleUser : UserInfo := { id := 1, name := "player1" }

/-- A healthy connected no-active-machine poll (404 from the active
endpoint). -/
def sampleNoActive : PollInput :=
  { connectOk := true, userStatus := 200, userPayload := some sampleUser,
    connStatus := 200, connPayload := some true, activeStatus := 404,
    activeInfo := none, activityResp := none, clearOk := true,
    waitUpdateOk := true, pushUpdateOk := true }

def lameMachine : Machine := { name := "Lame", avatar := some "/img/lame.png" }

/-- A healthy poll reporting machine "Lame" active, with a user-own record
for it in the activity log. -/
def sampleLame : PollInput :=
  { connectOk := true, userStatus := 200, userPayload := some sampleUser,
    connStatus := 200, connPayload := some true, activeStatus := 200,
    activeInfo := some lameMachine,
    activityResp := some (200, [{ name := "Lame", type := "user" }]),
    clearOk := true, waitUpdateOk := true, pushUpdateOk := true }

/- ### Claim theorems -/

/-- Claim C5: the active-session fetch treats an HTTP 404 and a 200 response
with a null payload identically as "no session", while any other non-200
status escalates as an error. -/
theorem C5_active_machine_statuses (code : Nat) (info : Option Machine)
    (h4 : code ≠ 404) (h2 : code ≠ 200) :
    get_active_machine 404 info = Except.ok none ∧
    get_active_machine 200 none = Except.ok none ∧
    get_active_machine code info =
      Except.error ("machines/active " ++ toString code) := by
  refine ⟨rfl, rfl, ?_⟩
  simp [get_active_machine, h4, h2]

/-- Witness for C5 at status 500 with a non-null payload. -/
theorem C5_active_machine_statuses_witness :
    get_active_machine 404 (some ⟨"Lame", none⟩) = Except.ok none ∧
    get_active_machine 200 none = Except.ok none ∧
    get_active_machine 500 (some ⟨"Lame", none⟩) =
      Except.error ("machines/active " ++ toString 500) :=
  C5_active_machine_statuses 500 (some ⟨"Lame", none⟩) (by decide) (by decide)

/-- Claim C4: a failing user-info fetch escalates to the loop-level handler,
which performs a best-effort clear, sleeps 5 time units and resumes the loop
from the top with the state unchanged; the process never exits. -/
theorem C4_user_info_failure_recovers (s : Session) (i : PollInput)
    (rest : List PollInput)
    (hc : s.connected_rpc = true) (hu : i.userStatus ≠ 200) :
    step s i = (s, [Event.clear, Event.sleep 5]) ∧
    (run s (i :: rest)).1 = (run s rest).1 := by
  have hb : body s i = BodyResult.raised s [] := by
    simp [body, hc, checks, get_user_info, hu]
  have hstep : step s i = (s, [Event.clear, Event.sleep 5]) := by
    simp [step, hb, loop_handler]
  exact ⟨hstep, by simp [run, hstep]⟩

/-- Witness for C4: a 401 user-info response in a connected session. -/
theorem C4_user_info_failure_recovers_witness :
    step ⟨true, some "Lame"⟩
        ⟨true, 401, none, 200, some true, 404, none, none, true, true, true⟩ =
      (⟨true, some "Lame"⟩, [Event.clear, Event.sleep 5]) ∧
    (run ⟨true, some "Lame"⟩
        [⟨true, 401, none, 200, some true, 404, none, none, true, true, true⟩]).1 =
      (run ⟨true, some "Lame"⟩ []).1 :=
  C4_user_info_failure_recovers ⟨true, some "Lame"⟩
    ⟨true, 401, none, 200, some true, 404, none, none, true, true, true⟩ []
    rfl (by decide)

/-- Claim C10: the loop-level failure handler leaves the session state
exactly as it was at the point the exception escaped — it neither resets
`last_machine` nor touches `connected_rpc` — and only appends a best-effort
clear and a sleep of 5 to the trace. -/
theorem C10_handler_frame (s s1 : Session) (i : PollInput) (evs : List Event)
    (h : body s i = BodyResult.raised s1 evs) :
    (step s i).1.last_machine = s1.last_machine ∧
    (step s i).1.connected_rpc = s1.connected_rpc ∧
    (step s i).2 = evs ++ [Event.clear, Event.sleep 5] := by
  simp [step, h, loop_handler]

/-- Witness for C10: an iteration whose user-info fetch raises. -/
theorem C10_handler_frame_witness :
    (step ⟨true, some "Precious"⟩
        ⟨true, 500, none, 200, some true, 404, none, none, true, true, true⟩).1.last_machine =
      (⟨true, some "Precious"⟩ : Session).last_machine ∧
    (step ⟨true, some "Precious"⟩
        ⟨true, 500, none, 200, some true, 404, none, none, true, true, true⟩).1.connected_rpc =
      (⟨true, some "Precious"⟩ : Session).connected_rpc ∧
    (step ⟨true, some "Precious"⟩
        ⟨true, 500, none, 200, some true, 404, none, none, true, true, true⟩).2 =
      [] ++ [Event.clear, Event.sleep 5] :=
  C10_handler_frame ⟨true, some "Precious"⟩ ⟨true, some "Precious"⟩
    ⟨true, 500, none, 200, some true, 404, none, none, true, true, true⟩ [] rfl

/-- Claim C1: on the transition from an iteration showing a machine
(`last_machine` non-null) to a no-session poll, exactly one clear is issued
and `last_machine` is reset to null; over any further run of healthy
no-session polls no clear is ever issued again. -/
theorem C1_clear_once_on_transition (s : Session) (i1 : PollInput)
    (rest : List PollInput) (u1 : Option UserInfo) (m : String)
    (hc : s.connected_rpc = true) (hlm : s.last_machine = some m)
    (hu1 : get_user_info i1.userStatus i1.userPayload = Except.ok u1)
    (ha1 : get_active_machine i1.activeStatus i1.activeInfo = Except.ok none)
    (hcl1 : i1.clearOk = true) (hw1 : i1.waitUpdateOk = true)
    (hrest : ∀ j ∈ rest, no_session_ok j) :
    clear_count (step s i1).2 = 1 ∧
    (step s i1).1.last_machine = none ∧
    clear_count (run (step s i1).1 rest).2 = 0 := by
  have hstep := step_no_machine s i1 u1 hc hu1 ha1 hcl1 hw1
  refine ⟨?_, ?_, ?_⟩
  · rw [hstep]
    cases hcn : connection_of i1 <;>
      simp [clear_count, hlm, hcn, Event.isClear, List.filter_append]
  · rw [hstep]
  · apply run_no_session_no_clear rest
    · rw [hstep]; exact hc
    · rw [hstep]
    · exact hrest

/-- Witness for C1: machine "Lame" shown, then two healthy no-session
polls. -/
theorem C1_clear_once_on_transition_witness :
    clear_count (step ⟨true, some "Lame"⟩ sampleNoActive).2 = 1 ∧
    (step ⟨true, some "Lame"⟩ sampleNoActive).1.last_machine = none ∧
    clear_count (run (step ⟨true, some "Lame"⟩ sampleNoActive).1 [sampleNoActive]).2 = 0 :=
  C1_clear_once_on_transition ⟨true, some "Lame"⟩ sampleNoActive [sampleNoActive]
    (some sampleUser) "Lame" rfl rfl rfl rfl rfl rfl
    (fun j hj => by
      simp only [List.mem_singleton] at hj
      subst hj
      exact ⟨⟨some sampleUser, rfl⟩, rfl, rfl, rfl⟩)

/-- Claim C2: with an active machine the payload is pushed every iteration
(keep-alive) with `details` = the machine's name, and `last_machine` equals
the current name afterwards: unchanged across two same-name iterations,
updated to the new name when it differs. -/
theorem C2_keepalive_push (s : Session) (i1 i2 : PollInput)
    (u1 u2 : Option UserInfo) (m1 m2 : Machine)
    (hc : s.connected_rpc = true)
    (hu1 : get_user_info i1.userStatus i1.userPayload = Except.ok u1)
    (ha1 : get_active_machine i1.activeStatus i1.activeInfo = Except.ok (some m1))
    (hp1 : i1.pushUpdateOk = true)
    (hu2 : get_user_info i2.userStatus i2.userPayload = Except.ok u2)
    (ha2 : get_active_machine i2.activeStatus i2.activeInfo = Except.ok (some m2))
    (hp2 : i2.pushUpdateOk = true) :
    (updates_of (step s i1).2).map UpdateFields.details = [some m1.name] ∧
    (step s i1).1.last_machine = some m1.name ∧
    (updates_of (step (step s i1).1 i2).2).map UpdateFields.details = [some m2.name] ∧
    (step (step s i1).1 i2).1.last_machine = some m2.name ∧
    (m1.name = m2.name →
      (step (step s i1).1 i2).1.last_machine = (step s i1).1.last_machine) := by
  have h1 := step_machine s i1 u1 m1 hc hu1 ha1 hp1
  have hc1 : (step s i1).1.connected_rpc = true := by rw [h1]; exact hc
  have h2 := step_machine (step s i1).1 i2 u2 m2 hc1 hu2 ha2 hp2
  rw [h2, h1]
  refine ⟨?_, rfl, ?_, rfl, ?_⟩
  · simp [updates_of, machine_fields]
  · simp [updates_of, machine_fields]
  · intro hname
    simp [hname]

/-- Witness for C2: machine "Lame" active in two consecutive polls. -/
theorem C2_keepalive_push_witness :
    (updates_of (step ⟨true, none⟩ sampleLame).2).map UpdateFields.details =
      [some lameMachine.name] ∧
    (step ⟨true, none⟩ sampleLame).1.last_machine = some lameMachine.name ∧
    (updates_of (step (step ⟨true, none⟩ sampleLame).1 sampleLame).2).map UpdateFields.details =
      [some lameMachine.name] ∧
    (step (step ⟨true, none⟩ sampleLame).1 sampleLame).1.last_machine =
      some lameMachine.name ∧
    (lameMachine.name = lameMachine.name →
      (step (step ⟨true, none⟩ sampleLame).1 sampleLame).1.last_machine =
        (step ⟨true, none⟩ sampleLame).1.last_machine) :=
  C2_keepalive_push ⟨true, none⟩ sampleLame sampleLame (some sampleUser)
    (some sampleUser) lameMachine lameMachine rfl rfl rfl rfl rfl rfl rfl

/-- Counterexample for C3: the default payload the code pushes on a
connected no-session iteration carries `details = "Connected to HTB"` and
`state = "Waiting for active machine"`, not the strings the claim names. -/
theorem C3_counterexample_literal_strings :
    updates_of (step ⟨true, none⟩ sampleNoActive).2 = [waiting_fields] ∧
    waiting_fields.details ≠ some "Connected" ∧
    waiting_fields.state ≠ some "Waiting for active session" :=
  ⟨rfl, by decide, by decide⟩

/-- Claim C3 (amended): on every iteration where the active session is
absent and the connection status is true, the loop pushes the default
payload with `details = "Connected to HTB"` and
`state = "Waiting for active machine"` — on every such iteration, not only
on the transition into the no-session state. -/
theorem C3_waiting_push_every_iteration (s : Session) (i : PollInput)
    (u : Option UserInfo)
    (hc : s.connected_rpc = true)
    (hu : get_user_info i.userStatus i.userPayload = Except.ok u)
    (ha : get_active_machine i.activeStatus i.activeInfo = Except.ok none)
    (hconn : connection_of i = true)
    (hcl : i.clearOk = true) (hw : i.waitUpdateOk = true) :
    updates_of (step s i).2 = [waiting_fields] ∧
    waiting_fields.details = some "Connected to HTB" ∧
    waiting_fields.state = some "Waiting for active machine" := by
  rw [step_no_machine s i u hc hu ha hcl hw]
  refine ⟨?_, rfl, rfl⟩
  rcases hsl : s.last_machine with _ | n <;> simp [updates_of, hconn, hsl]

/-- Witness for C3 (amended): a non-transition no-session iteration
(`last_machine` already null) still pushes the default payload. -/
theorem C3_waiting_push_every_iteration_witness :
    updates_of (step ⟨true, none⟩ sampleNoActive).2 = [waiting_fields] ∧
    waiting_fields.details = some "Connected to HTB" ∧
    waiting_fields.state = some "Waiting for active machine" :=
  C3_waiting_push_every_iteration ⟨true, none⟩ sampleNoActive
    (some sampleUser) rfl rfl rfl rfl rfl rfl

/-- Claim C6: a failing connection-status fetch never aborts the iteration —
the whole step behaves exactly as if the fetch had returned `false`. -/
theorem C6_connection_failure_degrades (s : Session) (i : PollInput)
    (h : i.connStatus ≠ 200) :
    step s i = step s { i with connStatus := 200, connPayload := some false } := by
  have hcn : connection_of i =
      connection_of { i with connStatus := 200, connPayload := some false } := by
    simp [connection_of, get_connection_status, h]
  have hchecks : ∀ s1 evs, checks s1 i evs =
      checks s1 { i with connStatus := 200, connPayload := some false } evs :=
    fun s1 evs => checks_congr s1 i _ evs rfl rfl hcn rfl rfl rfl rfl rfl rfl
  unfold step body
  simp only [hchecks]

/-- Witness for C6: a 500 from the connection-status endpoint during an
active-machine poll. -/
theorem C6_connection_failure_degrades_witness :
    step ⟨true, none⟩ { sampleLame with connStatus := 500 } =
      step ⟨true, none⟩
        { { sampleLame with connStatus := 500 } with
            connStatus := 200, connPayload := some false } :=
  C6_connection_failure_degrades ⟨true, none⟩
    { sampleLame with connStatus := 500 } (by decide)

/-- Claim C7: with an active machine, a raising activity-log fetch never
aborts the iteration — the flags silently fall back to
`{user := false, root := false}` and the push still occurs. -/
theorem C7_activity_failure_fallback (s : Session) (i : PollInput)
    (u : Option UserInfo) (m : Machine)
    (hc : s.connected_rpc = true)
    (hu : get_user_info i.userStatus i.userPayload = Except.ok u)
    (ha : get_active_machine i.activeStatus i.activeInfo = Except.ok (some m))
    (har : i.activityResp = none) (hp : i.pushUpdateOk = true) :
    activity_flags u i.activityResp m.name = { user := false, root := false } ∧
    (updates_of (step s i).2).map UpdateFields.state =
      [some (render_state { user := false, root := false })] ∧
    (updates_of (step s i).2).map UpdateFields.details = [some m.name] := by
  have hfl : activity_flags u i.activityResp m.name =
      { user := false, root := false } := by
    rw [har]; cases u <;> rfl
  rw [step_machine s i u m hc hu ha hp]
  refine ⟨hfl, ?_, ?_⟩ <;> simp [updates_of, machine_fields, hfl]

/-- Witness for C7: an active "Lame" poll whose activity request raises. -/
theorem C7_activity_failure_fallback_witness :
    activity_flags (some sampleUser)
      ({ sampleLame with activityResp := none }).activityResp lameMachine.name =
      { user := false, root := false } ∧
    (updates_of (step ⟨true, none⟩ { sampleLame with activityResp := none }).2).map
        UpdateFields.state =
      [some (render_state { user := false, root := false })] ∧
    (updates_of (step ⟨true, none⟩ { sampleLame with activityResp := none }).2).map
        UpdateFields.details = [some lameMachine.name] :=
  C7_activity_failure_fallback ⟨true, none⟩
    { sampleLame with activityResp := none } (some sampleUser) lameMachine
    rfl rfl rfl rfl rfl

/-- Claim C8: for active machine "Lame" with avatar "/img/lame.png" and an
activity log holding exactly one matching user-own record, the pushed
payload has `details` = the machine name, `state` rendering the user flag
achieved and the root flag not achieved, `large_image` = the avatar resolved
against the fixed origin (with "htb_logo" as the fallback when the avatar is
absent), and `small_text` = the user's display name. -/
theorem C8_lame_scenario :
    updates_of (step ⟨true, none⟩ sampleLame).2 =
      [{ details := some "Lame",
         state := some (render_state { user := true, root := false }),
         large_image := some (API_BASE_ORIGIN ++ "/img/lame.png"),
         small_image := some "",
         small_text := some sampleUser.name,
         large_text := none }] ∧
    large_image_of none = "htb_logo" :=
  ⟨by decide, by decide⟩

/-- Claim C9: the connected flag is monotone — once true it stays true
across any iteration, and the guarded connect step is never re-entered. -/
theorem C9_connected_monotone (s : Session) (i : PollInput)
    (hc : s.connected_rpc = true) :
    (step s i).1.connected_rpc = true ∧
    Event.connectAttempt ∉ (step s i).2 := by
  have hb : body s i = checks s i [] := by simp [body, hc]
  constructor
  · rw [step_session, hb, checks_conn]; exact hc
  · exact step_no_connect s i (by rw [hb]; exact checks_no_connect s i [] (by simp))

/-- Witness for C9: a connected session stays connected through an
active-machine poll, with no reconnect attempt. -/
theorem C9_connected_monotone_witness :
    (step ⟨true, none⟩ sampleLame).1.connected_rpc = true ∧
    Event.connectAttempt ∉ (step ⟨true, none⟩ sampleLame).2 :=
  C9_connected_monotone ⟨true, none⟩ sampleLame rfl

end HtbPresence
